import Mathlib

/-
Verification of the fluent value-validation engine in validator.py.

The file shallowly embeds the Python module: Python values that matter to the
validator are an inductive `PyValue`, the `Validator` object is a structure
carrying the wrapped value, the ordered error list and the `_stop_validation`
flag, and every public check method is a Lean function translated line by line
from the source.  Regular-expression tests are embedded as decidable Boolean
functions on strings equivalent to the concrete patterns in the source
(Python `re` semantics: `re.match` anchors at the start, `$` also accepts a
single trailing newline, `\Z` means the true end of the string, `\d` is
modelled by the ASCII digits, which is exact on ASCII input).  The one check
that can raise at runtime, `is_in_range`, returns `Except PyExn Validator`:
chained comparison of a complex number with an integer raises `TypeError` in
Python, and the source does not catch it.  All other check methods are total
for well-formed arguments and return the updated validator.
-/

/-- The runtime values relevant to the validator: `None`, booleans, integers,
strings and complex numbers (complex components are modelled as integers; only
the runtime category of the value matters to the validator, never the
component values). -/
inductive PyValue where
  | none
  | bool (b : Bool)
  | int (n : Int)
  | str (s : String)
  | complex (re im : Int)
deriving DecidableEq

/-- The runtime types the validator's type gates can be asked about:
`str`, `int`, `bool`, `numbers.Number` and `type(None)`. -/
inductive PyType where
  | strT
  | intT
  | boolT
  | numberT
  | noneT
deriving DecidableEq

/-- Python `isinstance`: note that `bool` is a subclass of `int`, and that
`bool`, `int` and `complex` are all registered in the `numbers.Number`
abstract hierarchy. -/
def isinstance (v : PyValue) : PyType → Bool
  | PyType.strT =>
      match v with
      | PyValue.str _ => true
      | _ => false
  | PyType.intT =>
      match v with
      | PyValue.int _ => true
      | PyValue.bool _ => true
      | _ => false
  | PyType.boolT =>
      match v with
      | PyValue.bool _ => true
      | _ => false
  | PyType.numberT =>
      match v with
      | PyValue.int _ => true
      | PyValue.bool _ => true
      | PyValue.complex _ _ => true
      | _ => false
  | PyType.noneT =>
      match v with
      | PyValue.none => true
      | _ => false

/-- `expected_type.__name__` for the modelled types. -/
def typeName : PyType → String
  | PyType.strT => "str"
  | PyType.intT => "int"
  | PyType.boolT => "bool"
  | PyType.numberT => "Number"
  | PyType.noneT => "NoneType"

/-- `type(value).__name__` for the modelled values. -/
def pyTypeName : PyValue → String
  | PyValue.none => "NoneType"
  | PyValue.bool _ => "bool"
  | PyValue.int _ => "int"
  | PyValue.str _ => "str"
  | PyValue.complex _ _ => "complex"

/-- The `Validator` object: the wrapped value, the ordered error list and the
`_stop_validation` flag (named `stop_validation` here). -/
structure Validator where
  value : PyValue
  errors : List String
  stop_validation : Bool
deriving DecidableEq

/-- `Validator.__init__`: store the value, start with no errors and the stop
flag down; if the value is `None`, record "Value cannot be None" and raise the
stop flag. -/
def Validator.init (value : PyValue) : Validator :=
  if value = PyValue.none then
    Validator.mk value (["Value cannot be None"]) true
  else
    Validator.mk value ([]) false

/-- `Validator._add_error`: append a message at the end of the error list. -/
def Validator.add_error (v : Validator) (message : String) : Validator :=
  Validator.mk v.value (v.errors ++ [message]) v.stop_validation

/-- `Validator.is_valid`: true iff no errors were collected. -/
def Validator.is_valid (v : Validator) : Bool :=
  v.errors.length == 0

/-- `Validator.get_errors` in the pure model: the current error list.  (This
pure model cannot express that the Python method hands out the internal list
object itself; the heap model below does.) -/
def Validator.get_errors (v : Validator) : List String :=
  v.errors

/-- `Validator.is_type`: no-op when already stopped; otherwise a failed
`isinstance` test appends the (custom or default) message and raises the stop
flag. -/
def Validator.is_type (v : Validator) (t : PyType) (message : Option String) : Validator :=
  if v.stop_validation then v
  else if isinstance v.value t then v
  else
    Validator.mk v.value
      (v.errors ++ [message.getD ("Value must be of type " ++ typeName t ++ ", got " ++ pyTypeName v.value)])
      true

/-- The characters Python's `str.strip` removes (ASCII whitespace). -/
def isPySpace (c : Char) : Bool :=
  c == ' ' || c == '\t' || c == '\n' || c == '\r' || c == '\x0b' || c == '\x0c'

/-- `Validator.is_not_empty`: gate on `str`, then `not self.value.strip()` is
true exactly when every character of the string is whitespace. -/
def Validator.is_not_empty (v : Validator) (message : Option String) : Validator :=
  let g := v.is_type PyType.strT Option.none
  if g.stop_validation then g
  else
    match g.value with
    | PyValue.str s =>
        if s.data.all isPySpace then
          g.add_error (message.getD ("Value cannot be empty or whitespace"))
        else g
    | _ => g

/-- The runtime faults the embedding tracks: Python's `TypeError`, raised by
ordering comparisons between a complex number and a real number. -/
inductive PyExn where
  | typeError
deriving DecidableEq

/-- `Validator.is_in_range`: gate on `numbers.Number`, then test
`min_val <= value <= max_val`.  Booleans compare as the integers 0 and 1.  A
chained comparison against a complex (or other non-real) value raises
`TypeError`, which the source does not catch, so the method returns
`Except PyExn Validator`.  The non-real branch is unreachable for `str` and
`NoneType` values because the `Number` gate halts first. -/
def Validator.is_in_range (v : Validator) (min_val max_val : Int) (message : Option String) :
    Except PyExn Validator :=
  let g := v.is_type PyType.numberT Option.none
  if g.stop_validation then Except.ok g
  else
    let msg := message.getD ("Value must be between " ++ toString min_val ++ " and " ++ toString max_val)
    match g.value with
    | PyValue.bool b =>
        let x : Int := if b then 1 else 0
        if min_val ≤ x ∧ x ≤ max_val then Except.ok g else Except.ok (g.add_error msg)
    | PyValue.int n =>
        if min_val ≤ n ∧ n ≤ max_val then Except.ok g else Except.ok (g.add_error msg)
    | _ => Except.error PyExn.typeError

/-- Characters allowed in the local part of `EMAIL_REGEX`:
the class written as letters, digits, dot, underscore, percent, plus, minus. -/
def isLocalChar (c : Char) : Bool :=
  c.isAlpha || c.isDigit || c == '.' || c == '_' || c == '%' || c == '+' || c == '-'

/-- Characters allowed in the domain part of `EMAIL_REGEX`:
letters, digits, dot, minus. -/
def isDomainChar (c : Char) : Bool :=
  c.isAlpha || c.isDigit || c == '.' || c == '-'

/-- The part of `EMAIL_REGEX` after the at sign: one-or-more domain
characters, a literal dot, then two-or-more letters, consuming the whole
remaining input.  The existential over the position of the literal dot is
exactly regular-expression match existence. -/
def emailDomainCore (ds : List Char) : Bool :=
  (List.range ds.length).any fun j =>
    decide (0 < j) && (ds.take j).all isDomainChar && (ds.get? j == some '.') &&
      (let tail := ds.drop (j + 1)
       decide (2 ≤ tail.length) && tail.all Char.isAlpha)

/-- The body of `EMAIL_REGEX` (everything between the anchors), consuming the
whole input: one-or-more local characters, a literal at sign, then the domain
shape. -/
def emailCore (cs : List Char) : Bool :=
  (List.range cs.length).any fun i =>
    decide (0 < i) && (cs.take i).all isLocalChar && (cs.get? i == some '@') &&
      emailDomainCore (cs.drop (i + 1))

/-- `EMAIL_REGEX.match(s)` as a Boolean: the pattern is anchored at the start
by `re.match` and `^`; its final `$` matches at the end of the string or just
before a newline that ends the string (Python `$` semantics without
`re.MULTILINE`). -/
def emailMatch (s : String) : Bool :=
  emailCore s.data ||
    (match s.data.getLast? with
     | some c => c == '\n' && emailCore s.data.dropLast
     | Option.none => false)

/-- First component after the first occurrence of a character:
`s.split(c, 1)[1]` when it exists, `none` when `c` does not occur (where
Python raises `IndexError`, caught by the source). -/
def afterFirst (c : Char) : List Char → Option (List Char)
  | [] => Option.none
  | x :: xs => if x = c then some xs else afterFirst c xs

/-- `Validator.is_email`: gate on `str`; a failed `EMAIL_REGEX` match appends
the format error and stops there; otherwise, when a (truthy, i.e. non-empty)
required domain is given, the part after the first at sign is compared
case-insensitively against it.  The `IndexError` branch of the source (no at
sign after a successful match) is the `afterFirst = none` case. -/
def Validator.is_email (v : Validator) (required_domain : Option String) (message : Option String) :
    Validator :=
  let g := v.is_type PyType.strT Option.none
  if g.stop_validation then g
  else
    match g.value with
    | PyValue.str s =>
        if emailMatch s then
          match required_domain with
          | some rd =>
              if rd = "" then g
              else
                match afterFirst '@' s.data with
                | some rest =>
                    if (String.mk rest).toLower = rd.toLower then g
                    else g.add_error (message.getD ("Email must be from domain @" ++ rd))
                | Option.none =>
                    g.add_error (message.getD ("Invalid email format, cannot check domain"))
          | Option.none => g
        else
          g.add_error (message.getD ("Invalid email format"))
    | _ => g

/-- The special symbols of `is_strong_password`: the class `@$!%*?&#`. -/
def isSpecialChar (c : Char) : Bool :=
  c == '@' || c == '$' || c == '!' || c == '%' || c == '*' || c == '?' || c == '&' || c == '#'

/-- The local `errors` list built by `is_strong_password`, in source order:
length, uppercase, lowercase, digit, special symbol. -/
def pwFragments (s : String) (min_len : Nat) : List String :=
  (if s.length < min_len then (["must be at least " ++ toString min_len ++ " characters"]) else []) ++
  (if s.data.any Char.isUpper then [] else (["must contain one uppercase letter"])) ++
  (if s.data.any Char.isLower then [] else (["must contain one lowercase letter"])) ++
  (if s.data.any Char.isDigit then [] else (["must contain one digit"])) ++
  (if s.data.any isSpecialChar then [] else (["must contain one special symbol"]))

/-- `Validator.is_strong_password`: gate on `str`; collect every failing
criterion, and when at least one fails append the single combined message
prefix-plus-colon-plus-comma-joined-fragments. -/
def Validator.is_strong_password (v : Validator) (min_len : Nat) (message : Option String) :
    Validator :=
  let g := v.is_type PyType.strT Option.none
  if g.stop_validation then g
  else
    match g.value with
    | PyValue.str s =>
        let errs := pwFragments s min_len
        if errs.isEmpty then g
        else
          g.add_error ((message.getD ("Password is not strong")) ++ ": " ++ String.intercalate ", " errs)
    | _ => g

/-- A compiled regular expression: the pattern text (used only in the default
message of `matches_regex`) together with its `re.match` test, i.e. whether
the pattern matches at the start of the argument. -/
structure Pattern where
  raw : String
  matchAt : String → Bool

/-- A single-quote character, kept out of string literals. -/
def squote : String := String.singleton (Char.ofNat 39)

/-- `Validator.matches_regex`: gate on `str`; append the (custom or default)
message when `re.match(pattern, value)` fails.  The pattern argument is
assumed well formed (a compiled pattern), per the module's contract. -/
def Validator.matches_regex (v : Validator) (p : Pattern) (message : Option String) : Validator :=
  let g := v.is_type PyType.strT Option.none
  if g.stop_validation then g
  else
    match g.value with
    | PyValue.str s =>
        if p.matchAt s then g
        else g.add_error (message.getD ("Value does not match pattern " ++ squote ++ p.raw ++ squote))
    | _ => g

/-- `re.escape`: since Python 3.7, ASCII letters, digits and underscore are
kept, every other character is preceded by a backslash. -/
def re_escape (s : String) : String :=
  String.join (s.data.map fun c =>
    if c.isAlphanum || c == '_' then String.singleton c
    else String.singleton '\\' ++ String.singleton c)

/-- Full-string match of "this literal list of characters, then one-or-more
digits": the shape of both phone patterns, whose `\Z` anchors at the true end
of the string. -/
def litThenDigits (lit : List Char) (cs : List Char) : Bool :=
  (cs.take lit.length == lit) && !(cs.drop lit.length).isEmpty &&
    (cs.drop lit.length).all Char.isDigit

/-- The default phone pattern of `is_phone`, compiled from the source text:
a plus sign then one-or-more digits, anchored at both ends. -/
def genericPhone : Pattern :=
  Pattern.mk ("^\\+\\d+\\Z") (fun s => litThenDigits ([ '+' ]) s.data)

/-- `Validator.is_phone`: Python's `if country_code:` is false both for `None`
and for the empty string; a truthy country code is escaped with `re.escape`
and so matches literally.  The method always hands `matches_regex` an explicit
message, so the `matches_regex` default text is never used here. -/
def Validator.is_phone (v : Validator) (country_code : Option String) (message : Option String) :
    Validator :=
  match country_code with
  | some cc =>
      if cc = "" then
        v.matches_regex genericPhone (some (message.getD ("Invalid phone format, expected +[code][number]")))
      else
        v.matches_regex
          (Pattern.mk ("^" ++ re_escape cc ++ "\\d+\\Z") (fun s => litThenDigits cc.data s.data))
          (some (message.getD ("Phone must start with " ++ cc ++ " and be followed by digits")))
  | Option.none =>
      v.matches_regex genericPhone (some (message.getD ("Invalid phone format, expected +[code][number]")))

/-- One chained call to a public check method, with its arguments. -/
inductive Call where
  | is_type (t : PyType) (m : Option String)
  | is_not_empty (m : Option String)
  | is_in_range (min_val max_val : Int) (m : Option String)
  | is_email (rd : Option String) (m : Option String)
  | is_strong_password (min_len : Nat) (m : Option String)
  | matches_regex (p : Pattern) (m : Option String)
  | is_phone (cc : Option String) (m : Option String)

/-- The type gate a call performs before its semantic test. -/
def gateOf : Call → PyType
  | Call.is_type t _ => t
  | Call.is_in_range _ _ _ => PyType.numberT
  | _ => PyType.strT

/-- Execute one chained call.  Only `is_in_range` can raise; every other
method is total for well-formed arguments. -/
def step (v : Validator) : Call → Except PyExn Validator
  | Call.is_type t m => Except.ok (v.is_type t m)
  | Call.is_not_empty m => Except.ok (v.is_not_empty m)
  | Call.is_in_range a b m => v.is_in_range a b m
  | Call.is_email rd m => Except.ok (v.is_email rd m)
  | Call.is_strong_password n m => Except.ok (v.is_strong_password n m)
  | Call.matches_regex p m => Except.ok (v.matches_regex p m)
  | Call.is_phone cc m => Except.ok (v.is_phone cc m)

/-- Execute a chain of calls; an uncaught exception aborts the chain. -/
def run (v : Validator) : List Call → Except PyExn Validator
  | [] => Except.ok v
  | c :: cs =>
      match step v c with
      | Except.ok w => run w cs
      | Except.error e => Except.error e

/-
Heap model of list aliasing, for `get_errors`.  A Python list is a mutable
object: the pure model above snapshots its contents, but `get_errors` hands
the caller the internal list object itself, so caller-side mutation is only
expressible with an explicit store of list cells.
-/

/-- A store of list objects, indexed by their position. -/
abbrev Store := List (List String)

/-- Read a list object from the store. -/
def readList (st : Store) (i : Nat) : List String :=
  (st.get? i).getD []

/-- `list.append` performed through a reference to the list object. -/
def appendList (st : Store) (i : Nat) (message : String) : Store :=
  st.set i (readList st i ++ [message])

/-- A `Validator` object whose `errors` field is a reference into the store. -/
structure ValidatorObj where
  value : PyValue
  errorsId : Nat
  stop_validation : Bool

/-- `Validator.__init__` in the heap model: allocate a fresh list object for
`self.errors`, seeded exactly as in the pure model. -/
def newValidator (value : PyValue) (st : Store) : ValidatorObj × Store :=
  if value = PyValue.none then
    (ValidatorObj.mk value st.length true, st ++ [["Value cannot be None"]])
  else
    (ValidatorObj.mk value st.length false, st ++ [[]])

/-- `Validator.get_errors` in the heap model: `return self.errors` hands out
the internal list object itself, i.e. its reference, not a copy. -/
def ValidatorObj.get_errors (v : ValidatorObj) : Nat :=
  v.errorsId

/-- `Validator.is_valid` in the heap model: read the internal list object. -/
def ValidatorObj.is_valid (st : Store) (v : ValidatorObj) : Bool :=
  (readList st v.errorsId).length == 0

/-
Spec-side definitions, for refinement statements.
-/

/-- Modelled from the spec sentence for the email shape: one-or-more
characters from letters, digits, dot, underscore, percent, plus, minus, then
an at sign, then a domain of letters, digits, dot, minus, then a literal dot,
then two or more letters, anchored at both the start and the end of the
string (no trailing-newline allowance). -/
def emailShapeSpec (s : String) : Bool :=
  emailCore s.data

/-- A check method behaving as the spec's FormatViolation taxonomy demands on
an active validator: the stop flag stays down, the value is untouched, and
the error list is only ever appended to. -/
def activeSem (v w : Validator) : Prop :=
  w.stop_validation = false ∧ w.value = v.value ∧ ∃ tail, w.errors = v.errors ++ tail

/-
Helper lemmas.
-/

lemma activeSem_self (v : Validator) (h : v.stop_validation = false) : activeSem v v :=
  ⟨h, rfl, [], by simp⟩

lemma activeSem_add (v : Validator) (msg : String) (h : v.stop_validation = false) :
    activeSem v (v.add_error msg) :=
  ⟨h, rfl, [msg], rfl⟩

lemma append_singleton_ne (l : List String) (x : String) : l ++ [x] ≠ l := by
  intro h
  have := congrArg List.length h
  simp at this

lemma halted_is_type (value : PyValue) (errors : List String) (t : PyType) (m : Option String) :
    (Validator.mk value errors true).is_type t m = Validator.mk value errors true := rfl

lemma halted_matches_regex (value : PyValue) (errors : List String) (p : Pattern) (m : Option String) :
    (Validator.mk value errors true).matches_regex p m = Validator.mk value errors true := rfl

lemma halted_is_phone (value : PyValue) (errors : List String) (cc m : Option String) :
    (Validator.mk value errors true).is_phone cc m = Validator.mk value errors true := by
  cases cc with
  | none => rfl
  | some code =>
      by_cases h : code = "" <;> simp [Validator.is_phone, h, halted_matches_regex]

lemma halted_step (value : PyValue) (errors : List String) (c : Call) :
    step (Validator.mk value errors true) c = Except.ok (Validator.mk value errors true) := by
  cases c with
  | is_phone cc m => simp [step, halted_is_phone]
  | _ => rfl

lemma halted_run (value : PyValue) (errors : List String) (calls : List Call) :
    run (Validator.mk value errors true) calls = Except.ok (Validator.mk value errors true) := by
  induction calls with
  | nil => rfl
  | cons c cs ih => simp [run, halted_step, ih]

lemma init_str (s : String) :
    Validator.init (PyValue.str s) = Validator.mk (PyValue.str s) [] false := rfl

lemma str_gate (s : String) (errors : List String) (m : Option String) :
    (Validator.mk (PyValue.str s) errors false).is_type PyType.strT m =
      Validator.mk (PyValue.str s) errors false := rfl

lemma litThenDigits_iff (lit cs : List Char) :
    litThenDigits lit cs = true ↔
      ∃ t : List Char, cs = lit ++ t ∧ t ≠ [] ∧ t.all Char.isDigit = true := by
  constructor
  · intro h
    simp only [litThenDigits, Bool.and_eq_true, beq_iff_eq, Bool.not_eq_true'] at h
    obtain ⟨⟨h1, h2⟩, h3⟩ := h
    refine ⟨cs.drop lit.length, ?_, ?_, h3⟩
    · conv_lhs => rw [← List.take_append_drop lit.length cs]
      rw [h1]
    · intro hnil
      rw [hnil] at h2
      simp at h2
  · rintro ⟨t, rfl, hne, hdig⟩
    simp only [litThenDigits, Bool.and_eq_true, beq_iff_eq, Bool.not_eq_true']
    refine ⟨⟨List.take_left lit t, ?_⟩, ?_⟩ <;> rw [List.drop_left]
    · simpa using hne
    · exact hdig

/-
Claim theorems.
-/

/-- C1: on a Validator whose halted flag is raised, every check method
(is_type, is_not_empty, is_in_range, is_email, is_strong_password,
matches_regex, is_phone) is a no-op returning the same instance: no error is
appended and neither the value, the error list, nor the flag changes. -/
theorem halted_checks_are_noops :
    ∀ (value : PyValue) (errors : List String) (t : PyType) (mn mx : Int) (n : Nat)
      (p : Pattern) (rd cc m : Option String),
      (Validator.mk value errors true).is_type t m = Validator.mk value errors true ∧
      (Validator.mk value errors true).is_not_empty m = Validator.mk value errors true ∧
      (Validator.mk value errors true).is_in_range mn mx m = Except.ok (Validator.mk value errors true) ∧
      (Validator.mk value errors true).is_email rd m = Validator.mk value errors true ∧
      (Validator.mk value errors true).is_strong_password n m = Validator.mk value errors true ∧
      (Validator.mk value errors true).matches_regex p m = Validator.mk value errors true ∧
      (Validator.mk value errors true).is_phone cc m = Validator.mk value errors true := by
  intro value errors t mn mx n p rd cc m
  exact ⟨rfl, rfl, rfl, rfl, rfl, rfl, halted_is_phone value errors cc m⟩

/-- C2: construction with `None` records exactly the one error
"Value cannot be None" and raises the halted flag, and any chain of
subsequent check calls leaves the instance unchanged, so is_valid stays false
and get_errors still holds exactly that entry. -/
theorem none_construction_latches_single_error :
    ∀ calls : List Call,
      run (Validator.init PyValue.none) calls = Except.ok (Validator.init PyValue.none) ∧
      (Validator.init PyValue.none).get_errors = ["Value cannot be None"] ∧
      (Validator.init PyValue.none).stop_validation = true ∧
      (Validator.init PyValue.none).is_valid = false := by
  intro calls
  exact ⟨halted_run PyValue.none ["Value cannot be None"] calls, rfl, rfl, rfl⟩

/-- C4 counterexample: the claim says is_in_range never raises on a value of
any numeric runtime category, but on a complex value (which passes the
numbers.Number gate) the chained comparison raises TypeError, uncaught. -/
theorem is_in_range_complex_raises_cex :
    isinstance (PyValue.complex 0 1) PyType.numberT = true ∧
    (Validator.init (PyValue.complex 0 1)).is_in_range 0 10 Option.none =
      Except.error PyExn.typeError := by
  exact ⟨rfl, rfl⟩

/-- C4 amended: no check method raises for well-formed arguments, except that
is_in_range on a non-halted complex-valued Validator raises TypeError (the
chained comparison of a complex number with a real bound); a step of the
chain raises exactly in that one situation. -/
theorem step_raises_iff_complex_in_range :
    ∀ (v : Validator) (c : Call),
      step v c = Except.error PyExn.typeError ↔
        v.stop_validation = false ∧ (∃ a b, v.value = PyValue.complex a b) ∧
          ∃ mn mx m, c = Call.is_in_range mn mx m := by
  intro v c
  cases v with
  | mk value errors stp =>
      cases c with
      | is_in_range mn mx m =>
          cases stp with
          | true => simp [step, Validator.is_in_range, Validator.is_type]
          | false =>
              cases value <;>
                simp [step, Validator.is_in_range, Validator.is_type, isinstance] <;>
                (repeat' split) <;> simp
      | is_type t m => simp [step]
      | is_not_empty m => simp [step]
      | is_email rd m => simp [step]
      | is_strong_password n m => simp [step]
      | matches_regex p m => simp [step]
      | is_phone cc m => simp [step]

/-- C10: booleans pass the numbers.Number gate of is_in_range and compare as
the integers 0 and 1: with bounds min ≤ b ≤ max no error is appended and the
validator stays valid; in particular Validator(True).is_in_range(0, 1) is
valid. -/
theorem bool_passes_numeric_range_gate :
    ∀ (b : Bool) (mn mx : Int) (m : Option String),
      mn ≤ (if b then (1 : Int) else 0) → (if b then (1 : Int) else 0) ≤ mx →
      (Validator.init (PyValue.bool b)).is_in_range mn mx m =
        Except.ok (Validator.init (PyValue.bool b)) ∧
      (Validator.init (PyValue.bool b)).is_valid = true := by
  intro b mn mx m h1 h2
  refine ⟨?_, rfl⟩
  simp only [Validator.init, Validator.is_in_range, Validator.is_type, isinstance]
  simp [h1, h2]

/-- C10 witness: Validator(True).is_in_range(0, 1) appends nothing and the
instance is valid. -/
theorem bool_passes_numeric_range_gate_witness :
    (0 : Int) ≤ (if true then (1 : Int) else 0) ∧ (if true then (1 : Int) else 0) ≤ (1 : Int) ∧
    ((Validator.init (PyValue.bool true)).is_in_range 0 1 Option.none =
        Except.ok (Validator.init (PyValue.bool true)) ∧
      (Validator.init (PyValue.bool true)).is_valid = true) :=
  ⟨by decide, by decide,
    bool_passes_numeric_range_gate true 0 1 Option.none (by decide) (by decide)⟩

/-- C3 counterexample: the claim says the email pattern is anchored at both
ends so that no string with extra characters after a well-formed email
passes, but Python's end anchor also matches just before a trailing newline:
the well-formed email "user@example.com" followed by the extra newline
character still passes is_email with no error. -/
theorem email_trailing_newline_cex :
    emailShapeSpec "user@example.com" = true ∧
    ("user@example.com" ++ "\n") ≠ "user@example.com" ∧
    ((Validator.init (PyValue.str ("user@example.com" ++ "\n"))).is_email Option.none Option.none).errors = [] ∧
    ((Validator.init (PyValue.str ("user@example.com" ++ "\n"))).is_email Option.none Option.none).is_valid = true := by
  refine ⟨by decide, by decide, ?_, ?_⟩ <;> rfl

/-- C3 amended: on an active string-valued Validator, is_email() appends
"Invalid email format" (or the custom message) iff the value fails
EMAIL_REGEX, whose match accepts exactly the spec's email shape anchored at
both ends, or that same shape followed by one final newline (Python end-of-
string anchor semantics); "user@example.com" passes and "not-an-email" fails. -/
theorem is_email_matches_shape_up_to_trailing_newline :
    ∀ (s : String) (errs : List String) (m : Option String),
      ((Validator.mk (PyValue.str s) errs false).is_email Option.none m).errors =
        errs ++ (if emailMatch s then [] else [m.getD ("Invalid email format")]) ∧
      (emailMatch s = true ↔
        (emailShapeSpec s = true ∨
          ∃ t : List Char, s.data = t ++ [ '\n' ] ∧ emailShapeSpec (String.mk t) = true)) ∧
      emailMatch "user@example.com" = true ∧
      emailMatch "not-an-email" = false := by
  intro s errs m
  refine ⟨?_, ?_, by decide, by decide⟩
  · by_cases h : emailMatch s <;>
      simp [Validator.is_email, str_gate, Validator.add_error, h]
  · simp only [emailMatch, emailShapeSpec, Bool.or_eq_true]
    constructor
    · rintro (h | h)
      · exact Or.inl h
      · right
        rcases hl : s.data.getLast? with _ | c
        · rw [hl] at h
          simp at h
        · rw [hl] at h
          simp only [Bool.and_eq_true, beq_iff_eq] at h
          obtain ⟨hc, hcore⟩ := h
          have hne : s.data ≠ [] := by
            intro hnil
            rw [hnil] at hl
            simp at hl
          refine ⟨s.data.dropLast, ?_, hcore⟩
          have hlast : s.data.getLast hne = c := by
            have := List.getLast?_eq_getLast s.data hne
            rw [hl] at this
            exact (Option.some.injEq _ _).mp this.symm
          rw [← hc, ← hlast]
          exact (List.dropLast_append_getLast hne).symm
    · rintro (h | ⟨t, ht, hcore⟩)
      · exact Or.inl h
      · right
        rw [ht, List.getLast?_concat, List.dropLast_concat]
        simpa using hcore

/-- C5 counterexample: the claim says mutating the sequence returned by
get_errors never affects the Validator, but get_errors returns the internal
list object itself: after appending "x" through the returned reference, the
previously valid Validator("a") reports the appended error and is no longer
valid, unlike with no mutation. -/
theorem get_errors_alias_mutation_cex :
    ValidatorObj.is_valid (newValidator (PyValue.str "a") []).2 (newValidator (PyValue.str "a") []).1 = true ∧
    ValidatorObj.is_valid
        (appendList (newValidator (PyValue.str "a") []).2
          (ValidatorObj.get_errors (newValidator (PyValue.str "a") []).1) "x")
        (newValidator (PyValue.str "a") []).1 = false ∧
    readList
        (appendList (newValidator (PyValue.str "a") []).2
          (ValidatorObj.get_errors (newValidator (PyValue.str "a") []).1) "x")
        (newValidator (PyValue.str "a") []).1.errorsId = ["x"] := by
  refine ⟨rfl, rfl, rfl⟩

/-- C5 amended: get_errors returns the internal error list object itself, an
alias rather than a defensive copy, so a caller-side append through the
returned reference appends to the Validator's own error list and makes every
subsequent is_valid report false. -/
theorem get_errors_returns_alias :
    ∀ (x : PyValue) (msg : String),
      ValidatorObj.get_errors (newValidator x []).1 = (newValidator x []).1.errorsId ∧
      readList (appendList (newValidator x []).2 (ValidatorObj.get_errors (newValidator x []).1) msg)
          (newValidator x []).1.errorsId =
        readList (newValidator x []).2 (newValidator x []).1.errorsId ++ [msg] ∧
      ValidatorObj.is_valid
          (appendList (newValidator x []).2 (ValidatorObj.get_errors (newValidator x []).1) msg)
          (newValidator x []).1 = false := by
  intro x msg
  by_cases hx : x = PyValue.none <;>
    simp [newValidator, hx, readList, appendList, ValidatorObj.is_valid, ValidatorObj.get_errors]

lemma stop_is_type_eq (v : Validator) (t : PyType) (m : Option String) :
    (v.is_type t m).stop_validation = (v.stop_validation || !(isinstance v.value t)) := by
  unfold Validator.is_type
  by_cases h : v.stop_validation <;> by_cases hi : isinstance v.value t <;> simp [h, hi]

lemma stop_is_not_empty_eq (v : Validator) (m : Option String) :
    (v.is_not_empty m).stop_validation = (v.is_type PyType.strT Option.none).stop_validation := by
  simp only [Validator.is_not_empty]
  repeat' split
  all_goals rfl

lemma stop_matches_regex_eq (v : Validator) (p : Pattern) (m : Option String) :
    (v.matches_regex p m).stop_validation = (v.is_type PyType.strT Option.none).stop_validation := by
  simp only [Validator.matches_regex]
  repeat' split
  all_goals rfl

lemma stop_is_email_eq (v : Validator) (rd m : Option String) :
    (v.is_email rd m).stop_validation = (v.is_type PyType.strT Option.none).stop_validation := by
  simp only [Validator.is_email]
  repeat' split
  all_goals rfl

lemma stop_is_strong_password_eq (v : Validator) (n : Nat) (m : Option String) :
    (v.is_strong_password n m).stop_validation = (v.is_type PyType.strT Option.none).stop_validation := by
  simp only [Validator.is_strong_password]
  repeat' split
  all_goals rfl

lemma stop_is_phone_eq (v : Validator) (cc m : Option String) :
    (v.is_phone cc m).stop_validation = (v.is_type PyType.strT Option.none).stop_validation := by
  cases cc with
  | none => simp [Validator.is_phone, stop_matches_regex_eq]
  | some code =>
      by_cases h : code = "" <;> simp [Validator.is_phone, h, stop_matches_regex_eq]

lemma stop_is_in_range_eq (v : Validator) (a b : Int) (m : Option String) (w : Validator)
    (h : v.is_in_range a b m = Except.ok w) :
    w.stop_validation = (v.is_type PyType.numberT Option.none).stop_validation := by
  revert h
  unfold Validator.is_in_range
  generalize v.is_type PyType.numberT Option.none = g
  obtain ⟨gv, ge, gs⟩ := g
  intro h
  dsimp only at h
  repeat' split at h
  all_goals simp_all
  all_goals rw [← h]
  all_goals rfl

lemma step_stop_eq (u : Validator) (c : Call) (w : Validator) (h : step u c = Except.ok w) :
    w.stop_validation = (u.is_type (gateOf c) Option.none).stop_validation := by
  cases c with
  | is_type t m =>
      simp only [step, Except.ok.injEq] at h
      rw [← h, stop_is_type_eq, stop_is_type_eq]
      rfl
  | is_not_empty m =>
      simp only [step, Except.ok.injEq] at h
      rw [← h, stop_is_not_empty_eq]; rfl
  | is_in_range a b m =>
      exact stop_is_in_range_eq u a b m w h
  | is_email rd m =>
      simp only [step, Except.ok.injEq] at h
      rw [← h, stop_is_email_eq]; rfl
  | is_strong_password n m =>
      simp only [step, Except.ok.injEq] at h
      rw [← h, stop_is_strong_password_eq]; rfl
  | matches_regex p m =>
      simp only [step, Except.ok.injEq] at h
      rw [← h, stop_matches_regex_eq]; rfl
  | is_phone cc m =>
      simp only [step, Except.ok.injEq] at h
      rw [← h, stop_is_phone_eq]; rfl

lemma only_type_gate_halts (u : Validator) (c : Call) (w : Validator)
    (h : step u c = Except.ok w) (hw : w.stop_validation = true) :
    u.stop_validation = true ∨ isinstance u.value (gateOf c) = false := by
  rw [step_stop_eq u c w h, stop_is_type_eq] at hw
  simpa using hw

lemma activeSem_is_not_empty (s : String) (errs : List String) (m : Option String) :
    activeSem (Validator.mk (PyValue.str s) errs false)
      ((Validator.mk (PyValue.str s) errs false).is_not_empty m) := by
  simp only [Validator.is_not_empty, str_gate]
  repeat' split
  all_goals first
    | exact activeSem_self _ rfl
    | exact activeSem_add _ _ rfl

lemma activeSem_matches_regex (s : String) (errs : List String) (p : Pattern) (m : Option String) :
    activeSem (Validator.mk (PyValue.str s) errs false)
      ((Validator.mk (PyValue.str s) errs false).matches_regex p m) := by
  simp only [Validator.matches_regex, str_gate]
  repeat' split
  all_goals first
    | exact activeSem_self _ rfl
    | exact activeSem_add _ _ rfl

lemma activeSem_is_email (s : String) (errs : List String) (rd m : Option String) :
    activeSem (Validator.mk (PyValue.str s) errs false)
      ((Validator.mk (PyValue.str s) errs false).is_email rd m) := by
  simp only [Validator.is_email, str_gate]
  repeat' split
  all_goals first
    | exact activeSem_self _ rfl
    | exact activeSem_add _ _ rfl

lemma activeSem_is_strong_password (s : String) (errs : List String) (n : Nat) (m : Option String) :
    activeSem (Validator.mk (PyValue.str s) errs false)
      ((Validator.mk (PyValue.str s) errs false).is_strong_password n m) := by
  simp only [Validator.is_strong_password, str_gate]
  repeat' split
  all_goals first
    | exact activeSem_self _ rfl
    | exact activeSem_add _ _ rfl

lemma activeSem_is_phone (s : String) (errs : List String) (cc m : Option String) :
    activeSem (Validator.mk (PyValue.str s) errs false)
      ((Validator.mk (PyValue.str s) errs false).is_phone cc m) := by
  cases cc with
  | none => exact activeSem_matches_regex s errs _ _
  | some code =>
      by_cases h : code = ""
      · simp only [Validator.is_phone, if_pos h]
        exact activeSem_matches_regex s errs _ _
      · simp only [Validator.is_phone, if_neg h]
        exact activeSem_matches_regex s errs _ _

/-- C6: on an active string-valued Validator, every semantic check
(is_not_empty, matches_regex, is_email, is_strong_password, is_phone) leaves
the halted flag down, keeps the value, and only appends to the error list, so
subsequent checks still run and can append their own errors; a step of the
chain raises the halted flag only when the instance was already halted or its
value fails the call's type gate (absent-value construction being the halted
starting state); concretely, is_not_empty on whitespace appends its error and
a following failing matches_regex still appends a second one. -/
theorem semantic_failures_do_not_halt :
    ∀ (s : String) (errs : List String) (m1 m2 m3 m4 m5 : Option String)
      (p : Pattern) (rd : Option String) (n : Nat) (cc : Option String),
      activeSem (Validator.mk (PyValue.str s) errs false)
        ((Validator.mk (PyValue.str s) errs false).is_not_empty m1) ∧
      activeSem (Validator.mk (PyValue.str s) errs false)
        ((Validator.mk (PyValue.str s) errs false).matches_regex p m2) ∧
      activeSem (Validator.mk (PyValue.str s) errs false)
        ((Validator.mk (PyValue.str s) errs false).is_email rd m3) ∧
      activeSem (Validator.mk (PyValue.str s) errs false)
        ((Validator.mk (PyValue.str s) errs false).is_strong_password n m4) ∧
      activeSem (Validator.mk (PyValue.str s) errs false)
        ((Validator.mk (PyValue.str s) errs false).is_phone cc m5) ∧
      (∀ (u : Validator) (c : Call) (w : Validator),
        step u c = Except.ok w → w.stop_validation = true →
        u.stop_validation = true ∨ isinstance u.value (gateOf c) = false) ∧
      ((Validator.init (PyValue.str "   ")).is_not_empty Option.none).errors =
        ["Value cannot be empty or whitespace"] ∧
      (((Validator.init (PyValue.str "   ")).is_not_empty Option.none).matches_regex
          (Pattern.mk ("x") (fun _ => false)) Option.none).errors.length = 2 := by
  intro s errs m1 m2 m3 m4 m5 p rd n cc
  exact ⟨activeSem_is_not_empty s errs m1, activeSem_matches_regex s errs p m2,
    activeSem_is_email s errs rd m3, activeSem_is_strong_password s errs n m4,
    activeSem_is_phone s errs cc m5, only_type_gate_halts, rfl, rfl⟩

/-- C6 witness: the statement at a concrete instance. -/
theorem semantic_failures_do_not_halt_witness :
    activeSem (Validator.mk (PyValue.str "  ") [] false)
      ((Validator.mk (PyValue.str "  ") [] false).is_not_empty Option.none) ∧
    activeSem (Validator.mk (PyValue.str "  ") [] false)
      ((Validator.mk (PyValue.str "  ") [] false).matches_regex
        (Pattern.mk ("x") (fun _ => false)) Option.none) ∧
    activeSem (Validator.mk (PyValue.str "  ") [] false)
      ((Validator.mk (PyValue.str "  ") [] false).is_email Option.none Option.none) ∧
    activeSem (Validator.mk (PyValue.str "  ") [] false)
      ((Validator.mk (PyValue.str "  ") [] false).is_strong_password 8 Option.none) ∧
    activeSem (Validator.mk (PyValue.str "  ") [] false)
      ((Validator.mk (PyValue.str "  ") [] false).is_phone Option.none Option.none) ∧
    (∀ (u : Validator) (c : Call) (w : Validator),
      step u c = Except.ok w → w.stop_validation = true →
      u.stop_validation = true ∨ isinstance u.value (gateOf c) = false) ∧
    ((Validator.init (PyValue.str "   ")).is_not_empty Option.none).errors =
      ["Value cannot be empty or whitespace"] ∧
    (((Validator.init (PyValue.str "   ")).is_not_empty Option.none).matches_regex
        (Pattern.mk ("x") (fun _ => false)) Option.none).errors.length = 2 :=
  semantic_failures_do_not_halt "  " [] Option.none Option.none Option.none Option.none
    Option.none (Pattern.mk ("x") (fun _ => false)) Option.none 8 Option.none

/-- C7: on an active string-valued Validator, is_strong_password evaluates
all five criteria, and when at least one fails it appends exactly one
combined error, the prefix (custom message or "Password is not strong") plus
": " plus the comma-joined fragments of exactly the failing criteria in the
fixed order length, uppercase, lowercase, digit, special; "abc" yields the
single combined error listing length, uppercase, digit and special (no
lowercase fragment), and "Abcdef1!" appends no error. -/
theorem strong_password_combined_error :
    ∀ (s : String) (errs : List String) (m : Option String) (n : Nat),
      ((Validator.mk (PyValue.str s) errs false).is_strong_password n m).errors =
        errs ++ (if (pwFragments s n).isEmpty then []
                 else [(m.getD ("Password is not strong")) ++ ": " ++
                        String.intercalate ", " (pwFragments s n)]) ∧
      ((Validator.mk (PyValue.str s) errs false).is_strong_password n m).stop_validation = false ∧
      pwFragments "abc" 8 =
        ["must be at least 8 characters", "must contain one uppercase letter",
          "must contain one digit", "must contain one special symbol"] ∧
      ((Validator.init (PyValue.str "abc")).is_strong_password 8 Option.none).errors =
        ["Password is not strong: must be at least 8 characters, must contain one uppercase letter, must contain one digit, must contain one special symbol"] ∧
      ((Validator.init (PyValue.str "Abcdef1!")).is_strong_password 8 Option.none).errors = [] := by
  intro s errs m n
  refine ⟨?_, ?_, by decide, by decide, by decide⟩
  · by_cases h : (pwFragments s n).isEmpty <;>
      simp [Validator.is_strong_password, str_gate, Validator.add_error, h]
  · rw [stop_is_strong_password_eq, str_gate]

/-- C8: on an active string-valued Validator, is_phone with a (non-empty)
country code appends no error iff the whole string is the literal country
code followed by one or more digits, and is_phone with no code appends no
error iff the whole string is a plus sign followed by one or more digits;
"+380501234567" passes is_phone("+380"), "+1234567" fails it, "+1234567"
passes is_phone(), "1234567" fails it. -/
theorem is_phone_full_match_iff :
    ∀ (s cc : String) (errs : List String) (m : Option String), cc ≠ "" →
      ((((Validator.mk (PyValue.str s) errs false).is_phone (some cc) m).errors = errs) ↔
        ∃ t : List Char, s.data = cc.data ++ t ∧ t ≠ [] ∧ t.all Char.isDigit = true) ∧
      ((((Validator.mk (PyValue.str s) errs false).is_phone Option.none m).errors = errs) ↔
        ∃ t : List Char, s.data = '+' :: t ∧ t ≠ [] ∧ t.all Char.isDigit = true) ∧
      ((Validator.init (PyValue.str "+380501234567")).is_phone (some "+380") Option.none).is_valid = true ∧
      ((Validator.init (PyValue.str "+1234567")).is_phone (some "+380") Option.none).is_valid = false ∧
      ((Validator.init (PyValue.str "+1234567")).is_phone Option.none Option.none).is_valid = true ∧
      ((Validator.init (PyValue.str "1234567")).is_phone Option.none Option.none).is_valid = false := by
  intro s cc errs m hcc
  have key : ∀ (lit : List Char) (msg : String),
      (((if litThenDigits lit s.data
            then Validator.mk (PyValue.str s) errs false
            else (Validator.mk (PyValue.str s) errs false).add_error msg).errors = errs) ↔
        ∃ t : List Char, s.data = lit ++ t ∧ t ≠ [] ∧ t.all Char.isDigit = true) := by
    intro lit msg
    rw [← litThenDigits_iff]
    by_cases h : litThenDigits lit s.data <;>
      simp [h, Validator.add_error, append_singleton_ne]
  refine ⟨?_, ?_, by decide, by decide, by decide, by decide⟩
  · simp only [Validator.is_phone, if_neg hcc, Validator.matches_regex, str_gate]
    exact key cc.data _
  · simp only [Validator.is_phone, Validator.matches_regex, genericPhone, str_gate]
    exact key ([ '+' ]) _

/-- C8 witness: the statement at the concrete country code "+380" and value
"+380501234567". -/
theorem is_phone_full_match_iff_witness :
    ("+380" : String) ≠ "" ∧
    (((((Validator.mk (PyValue.str "+380501234567") [] false).is_phone (some "+380") Option.none).errors = ([] : List String)) ↔
        ∃ t : List Char, ("+380501234567" : String).data = ("+380" : String).data ++ t ∧ t ≠ [] ∧ t.all Char.isDigit = true) ∧
      ((((Validator.mk (PyValue.str "+380501234567") [] false).is_phone Option.none Option.none).errors = ([] : List String)) ↔
        ∃ t : List Char, ("+380501234567" : String).data = '+' :: t ∧ t ≠ [] ∧ t.all Char.isDigit = true) ∧
      ((Validator.init (PyValue.str "+380501234567")).is_phone (some "+380") Option.none).is_valid = true ∧
      ((Validator.init (PyValue.str "+1234567")).is_phone (some "+380") Option.none).is_valid = false ∧
      ((Validator.init (PyValue.str "+1234567")).is_phone Option.none Option.none).is_valid = true ∧
      ((Validator.init (PyValue.str "1234567")).is_phone Option.none Option.none).is_valid = false) :=
  ⟨by decide, is_phone_full_match_iff "+380501234567" "+380" [] Option.none (by decide)⟩

/-- C9: on a string that is non-empty after trimming, chaining is_not_empty
then matches_regex(p) and chaining matches_regex(p) then is_not_empty yield
the same final is_valid result, for every pattern p. -/
theorem not_empty_regex_order_independent :
    ∀ (s : String) (p : Pattern) (m1 m2 : Option String),
      s.data.all isPySpace = false →
      (((Validator.init (PyValue.str s)).is_not_empty m1).matches_regex p m2).is_valid =
        (((Validator.init (PyValue.str s)).matches_regex p m2).is_not_empty m1).is_valid := by
  intro s p m1 m2 h
  by_cases hm : p.matchAt s <;>
    simp [Validator.init, Validator.is_not_empty, Validator.matches_regex, Validator.is_type,
      isinstance, Validator.add_error, h, hm]

/-- C9 witness: the two chain orders agree on "ab" with a pattern that
rejects every string. -/
theorem not_empty_regex_order_independent_witness :
    ("ab" : String).data.all isPySpace = false ∧
    (((Validator.init (PyValue.str "ab")).is_not_empty Option.none).matches_regex
        (Pattern.mk ("x") (fun _ => false)) Option.none).is_valid =
      (((Validator.init (PyValue.str "ab")).matches_regex
          (Pattern.mk ("x") (fun _ => false)) Option.none).is_not_empty Option.none).is_valid :=
  ⟨by decide,
    not_empty_regex_order_independent "ab" (Pattern.mk ("x") (fun _ => false))
      Option.none Option.none (by decide)⟩
